import Mathlib

/-!
Verification development for the paystack Go client (`paystack.go`).

The repository is a thin HTTP client: a `Client` holding one secret, a
generic dispatcher `request` that builds an authenticated HTTP request,
sends it, checks the status code and decodes the JSON response, and five
operations wrapping it (`ValidateCredentials`, `CreateCustomer`,
`InitializeTransaction`, `ChargeAuthorization`, `VerifyTransaction`).

The network send itself is external; the dispatcher is embedded as two pure
halves: `Client.buildRequest` (the request built on lines 40-44) and
`handleResponse` (the response processing on lines 49-62), both faithful to
the Go source. Go's `encoding/json` marshaling of the repository's request
structs is embedded as explicit `Json` values (field order and zero values
as `json.Marshal` produces them), and unmarshaling of the response
envelopes is embedded as a JSON parser plus per-struct field folds that
follow `json.Unmarshal`'s semantics on these shapes: keys matched
case-insensitively against the (lowercase) field tags, unknown keys
ignored, `null` leaving non-pointer fields untouched and setting pointer
fields to nil, and type mismatches reported as errors.
-/

namespace Paystack

/-- JSON values. Numbers are modelled as integers: every numeric field of
the repository's structs is an integer, and no claim involves fractional
literals. -/
inductive Json where
  | null : Json
  | bool : Bool → Json
  | num : Int → Json
  | str : String → Json
  | arr : List Json → Json
  | obj : List (String × Json) → Json

/-- Field names of a JSON object, in order; `[]` for non-objects. -/
def Json.fieldNames : Json → List String
  | .obj flds => flds.map (fun kv => kv.1)
  | _ => []

/-- ASCII lower-casing of one character (models Go's case folding on the
ASCII field tags used by this repository). -/
def asciiLowerChar (c : Char) : Char :=
  if 'A' ≤ c ∧ c ≤ 'Z' then Char.ofNat (c.toNat + 32) else c

/-- ASCII lower-casing of a string. -/
def asciiLower (s : String) : String :=
  String.mk (s.data.map asciiLowerChar)

/-! ### JSON parsing (models `json.Unmarshal`'s syntax phase) -/

/-- JSON whitespace. -/
def isJsonWs (c : Char) : Bool :=
  c = ' ' || c = '\t' || c = '\n' || c = '\r'

/-- Skip leading whitespace. -/
def skipWs : List Char → List Char
  | [] => []
  | c :: cs => if isJsonWs c then skipWs cs else c :: cs

/-- The one-character string escape table, as source/result pairs
(`\uXXXX` is not modelled; no claim uses it, and an unmodelled escape is a
parse error, i.e. still a decode error). -/
def escTable : List (Char × Char) :=
  [('"', '"'), ('\\', '\\'), ('/', '/'), ('n', '\n'), ('t', '\t'),
   ('r', '\r'), ('b', Char.ofNat 8), ('f', Char.ofNat 12)]

/-- Look up a one-character string escape. -/
def escChar (c : Char) : Option Char :=
  (escTable.find? (fun p => p.1 == c)).map (fun p => p.2)

/-- Parse the body of a string literal after the opening quote; returns the
characters and the remaining input. -/
def parseStrBody : List Char → Except String (List Char × List Char)
  | [] => .error "unexpected end of JSON input"
  | '"' :: rest => .ok ([], rest)
  | '\\' :: e :: rest =>
    match escChar e with
    | some c =>
      match parseStrBody rest with
      | .error msg => .error msg
      | .ok (acc, r) => .ok (c :: acc, r)
    | none => .error "invalid escape sequence in string literal"
  | ['\\'] => .error "unexpected end of JSON input"
  | c :: rest =>
    match parseStrBody rest with
    | .error msg => .error msg
    | .ok (acc, r) => .ok (c :: acc, r)

/-- Split off a leading run of decimal digits. -/
def takeDigits (cs : List Char) : List Char × List Char :=
  cs.span Char.isDigit

/-- Decimal digits to a natural number. -/
def digitsToNat (ds : List Char) : Nat :=
  ds.foldl (fun acc c => acc * 10 + (c.toNat - 48)) 0

/-- Parse an integer JSON number (optional minus sign then digits). -/
def parseNumber (input : List Char) : Except String (Json × List Char) :=
  match input with
  | '-' :: rest =>
    match takeDigits rest with
    | ([], _) => .error "invalid number literal"
    | (ds, r) => .ok (.num (-(digitsToNat ds : Int)), r)
  | _ =>
    match takeDigits input with
    | ([], _) => .error "invalid number literal"
    | (ds, r) => .ok (.num (digitsToNat ds : Int), r)

mutual

/-- Parse one JSON value (fueled recursive descent). -/
def parseValue : Nat → List Char → Except String (Json × List Char)
  | 0, _ => .error "JSON value too deeply nested"
  | fuel + 1, input =>
    match skipWs input with
    | [] => .error "unexpected end of JSON input"
    | 'n' :: 'u' :: 'l' :: 'l' :: rest => .ok (.null, rest)
    | 't' :: 'r' :: 'u' :: 'e' :: rest => .ok (.bool true, rest)
    | 'f' :: 'a' :: 'l' :: 's' :: 'e' :: rest => .ok (.bool false, rest)
    | '"' :: rest =>
      match parseStrBody rest with
      | .error msg => .error msg
      | .ok (cs, r) => .ok (.str (String.mk cs), r)
    | '\x7b' :: rest =>
      match skipWs rest with
      | '\x7d' :: r => .ok (.obj [], r)
      | r =>
        match parseMembers fuel r with
        | .error msg => .error msg
        | .ok (ms, r2) => .ok (.obj ms, r2)
    | '[' :: rest =>
      match skipWs rest with
      | ']' :: r => .ok (.arr [], r)
      | r =>
        match parseElements fuel r with
        | .error msg => .error msg
        | .ok (vs, r2) => .ok (.arr vs, r2)
    | c :: rest =>
      if c = '-' ∨ c.isDigit then parseNumber (c :: rest)
      else .error "invalid character looking for beginning of value"

/-- Parse a nonempty `"key": value` list up to the closing brace. -/
def parseMembers : Nat → List Char → Except String (List (String × Json) × List Char)
  | 0, _ => .error "JSON value too deeply nested"
  | fuel + 1, input =>
    match input with
    | '"' :: rest =>
      match parseStrBody rest with
      | .error msg => .error msg
      | .ok (kcs, r1) =>
        match skipWs r1 with
        | ':' :: r2 =>
          match parseValue fuel r2 with
          | .error msg => .error msg
          | .ok (v, r3) =>
            match skipWs r3 with
            | ',' :: r4 =>
              match parseMembers fuel (skipWs r4) with
              | .error msg => .error msg
              | .ok (ms, r5) => .ok ((String.mk kcs, v) :: ms, r5)
            | '\x7d' :: r4 => .ok ([(String.mk kcs, v)], r4)
            | _ => .error "invalid character after object member"
        | _ => .error "invalid character after object key"
    | _ => .error "invalid character looking for object key"

/-- Parse a nonempty value list up to the closing square bracket. -/
def parseElements : Nat → List Char → Except String (List Json × List Char)
  | 0, _ => .error "JSON value too deeply nested"
  | fuel + 1, input =>
    match parseValue fuel input with
    | .error msg => .error msg
    | .ok (v, r1) =>
      match skipWs r1 with
      | ',' :: r2 =>
        match parseElements fuel r2 with
        | .error msg => .error msg
        | .ok (vs, r3) => .ok (v :: vs, r3)
      | ']' :: r2 => .ok ([v], r2)
      | _ => .error "invalid character after array element"

end

/-- Parse a whole JSON document; trailing non-whitespace is an error, as in
`json.Unmarshal`. -/
def parseJson (s : String) : Except String Json :=
  match parseValue (s.length + 1) s.data with
  | .error msg => .error msg
  | .ok (v, rest) =>
    if skipWs rest = [] then .ok v
    else .error "invalid character after top-level value"

/-! ### Data model (paystack.go lines 15-17, 65-69, 92-96, 138-159) -/

/-- The API client; holds the one secret credential (lines 15-17). -/
structure Client where
  secret : String
deriving DecidableEq

/-- `Customer` (lines 65-69): tags `id`, `email`, `customer_code`. -/
structure Customer where
  Id : Int
  Email : String
  CustomerCode : String
deriving DecidableEq

/-- `InitializedTransaction` (lines 92-96): tags `reference`,
`authorization_url`, `access_code`. -/
structure InitializedTransaction where
  Reference : String
  AuthorizationUrl : String
  AccessCode : String
deriving DecidableEq

/-- `Authorization` (lines 138-152). -/
structure Authorization where
  AuthorizationCode : String
  Bin : String
  Last4 : String
  ExpMonth : String
  ExpYear : String
  Channel : String
  CardType : String
  Bank : String
  CountryCode : String
  Brand : String
  Reusable : Bool
  Signature : String
  AccountName : String
deriving DecidableEq

/-- `VerifiedTransaction` (lines 154-159); `Authorization` is a pointer
field, modelled as `Option`. -/
structure VerifiedTransaction where
  Id : Int
  Reference : String
  Status : String
  Authorization : Option Paystack.Authorization
deriving DecidableEq

/-- The Go zero value of `Authorization`. -/
def zeroAuthorization : Authorization :=
  ⟨"", "", "", "", "", "", "", "", "", "", false, "", ""⟩

/-- The Go zero value of `Customer`. -/
def zeroCustomer : Customer := ⟨0, "", ""⟩

/-- The Go zero value of `InitializedTransaction`. -/
def zeroInitializedTransaction : InitializedTransaction := ⟨"", "", ""⟩

/-- The Go zero value of `VerifiedTransaction`. -/
def zeroVerifiedTransaction : VerifiedTransaction := ⟨0, "", "", none⟩

/-! ### Marshaling (models `json.Marshal` on the request structs) -/

/-- `json.Marshal` of `Customer`: all three tagged fields, in declaration
order, with no `omitempty` (lines 65-69). -/
def marshalCustomer (c : Customer) : Json :=
  .obj [("id", .num c.Id), ("email", .str c.Email),
        ("customer_code", .str c.CustomerCode)]

/-- `InitTransactionReq` (lines 101-104): tags `email`, `amount`; the
amount field is a string. -/
structure InitTransactionReq where
  Email : String
  Amount : String

/-- `json.Marshal` of `InitTransactionReq`. -/
def marshalInitTransactionReq (r : InitTransactionReq) : Json :=
  .obj [("email", .str r.Email), ("amount", .str r.Amount)]

/-- `ChargeTransactionReq` (lines 120-124): tags `email`, `amount`,
`authorization_code`. -/
structure ChargeTransactionReq where
  Email : String
  Amount : String
  AuthorizationCode : String

/-- `json.Marshal` of `ChargeTransactionReq`. -/
def marshalChargeTransactionReq (r : ChargeTransactionReq) : Json :=
  .obj [("email", .str r.Email), ("amount", .str r.Amount),
        ("authorization_code", .str r.AuthorizationCode)]

/-- Models `fmt.Sprintf` with verb `%d` on an integer: the decimal string
representation, with a leading minus sign when negative. -/
def sprintfD (n : Int) : String := toString n

/-! ### Unmarshaling (models `json.Unmarshal` on the response structs).
Keys are matched case-insensitively against the lowercase field tags (Go
prefers an exact match but also accepts a case-insensitive one; the two
coincide here because all tags are lowercase and pairwise distinct even
after folding). Unknown keys are ignored; `null` leaves a non-pointer
field untouched and sets a pointer field to nil; a type mismatch is an
error. Fields are applied in the order they occur, so a later duplicate
key overrides an earlier one, as in Go. -/

/-- Fold the members of a JSON object into a `Customer` value. -/
def unmarshalCustomerInto (c : Customer) : List (String × Json) → Except String Customer
  | [] => .ok c
  | (k, v) :: rest =>
    let lk := asciiLower k
    if lk = "id" then
      match v with
      | .null => unmarshalCustomerInto c rest
      | .num n => unmarshalCustomerInto ⟨n, c.Email, c.CustomerCode⟩ rest
      | _ => .error "json: cannot unmarshal value into Go struct field Customer.id of type int"
    else if lk = "email" then
      match v with
      | .null => unmarshalCustomerInto c rest
      | .str s => unmarshalCustomerInto ⟨c.Id, s, c.CustomerCode⟩ rest
      | _ => .error "json: cannot unmarshal value into Go struct field Customer.email of type string"
    else if lk = "customer_code" then
      match v with
      | .null => unmarshalCustomerInto c rest
      | .str s => unmarshalCustomerInto ⟨c.Id, c.Email, s⟩ rest
      | _ => .error "json: cannot unmarshal value into Go struct field Customer.customer_code of type string"
    else unmarshalCustomerInto c rest

/-- Fold the members of a JSON object into an `InitializedTransaction`. -/
def unmarshalInitializedTransactionInto (t : InitializedTransaction) :
    List (String × Json) → Except String InitializedTransaction
  | [] => .ok t
  | (k, v) :: rest =>
    let lk := asciiLower k
    if lk = "reference" then
      match v with
      | .null => unmarshalInitializedTransactionInto t rest
      | .str s => unmarshalInitializedTransactionInto ⟨s, t.AuthorizationUrl, t.AccessCode⟩ rest
      | _ => .error "json: cannot unmarshal value into Go struct field InitializedTransaction.reference of type string"
    else if lk = "authorization_url" then
      match v with
      | .null => unmarshalInitializedTransactionInto t rest
      | .str s => unmarshalInitializedTransactionInto ⟨t.Reference, s, t.AccessCode⟩ rest
      | _ => .error "json: cannot unmarshal value into Go struct field InitializedTransaction.authorization_url of type string"
    else if lk = "access_code" then
      match v with
      | .null => unmarshalInitializedTransactionInto t rest
      | .str s => unmarshalInitializedTransactionInto ⟨t.Reference, t.AuthorizationUrl, s⟩ rest
      | _ => .error "json: cannot unmarshal value into Go struct field InitializedTransaction.access_code of type string"
    else unmarshalInitializedTransactionInto t rest

/-- Set one field of an `Authorization` from a string-typed member. -/
def setAuthorizationStringField (a : Authorization) (tag : String) (s : String) : Authorization :=
  if tag = "authorization_code" then { a with AuthorizationCode := s }
  else if tag = "bin" then { a with Bin := s }
  else if tag = "last4" then { a with Last4 := s }
  else if tag = "exp_month" then { a with ExpMonth := s }
  else if tag = "exp_year" then { a with ExpYear := s }
  else if tag = "channel" then { a with Channel := s }
  else if tag = "card_type" then { a with CardType := s }
  else if tag = "bank" then { a with Bank := s }
  else if tag = "country_code" then { a with CountryCode := s }
  else if tag = "brand" then { a with Brand := s }
  else if tag = "signature" then { a with Signature := s }
  else { a with AccountName := s }

/-- The string-typed tags of `Authorization`. -/
def authorizationStringTags : List String :=
  ["authorization_code", "bin", "last4", "exp_month", "exp_year", "channel",
   "card_type", "bank", "country_code", "brand", "signature", "account_name"]

/-- Fold the members of a JSON object into an `Authorization`. -/
def unmarshalAuthorizationInto (a : Authorization) :
    List (String × Json) → Except String Authorization
  | [] => .ok a
  | (k, v) :: rest =>
    let lk := asciiLower k
    if authorizationStringTags.contains lk then
      match v with
      | .null => unmarshalAuthorizationInto a rest
      | .str s => unmarshalAuthorizationInto (setAuthorizationStringField a lk s) rest
      | _ => .error "json: cannot unmarshal value into Go struct field Authorization of type string"
    else if lk = "reusable" then
      match v with
      | .null => unmarshalAuthorizationInto a rest
      | .bool b => unmarshalAuthorizationInto { a with Reusable := b } rest
      | _ => .error "json: cannot unmarshal value into Go struct field Authorization.reusable of type bool"
    else unmarshalAuthorizationInto a rest

/-- Fold the members of a JSON object into a `VerifiedTransaction`; the
`authorization` member targets a pointer field. -/
def unmarshalVerifiedTransactionInto (t : VerifiedTransaction) :
    List (String × Json) → Except String VerifiedTransaction
  | [] => .ok t
  | (k, v) :: rest =>
    let lk := asciiLower k
    if lk = "id" then
      match v with
      | .null => unmarshalVerifiedTransactionInto t rest
      | .num n => unmarshalVerifiedTransactionInto ⟨n, t.Reference, t.Status, t.Authorization⟩ rest
      | _ => .error "json: cannot unmarshal value into Go struct field VerifiedTransaction.id of type int"
    else if lk = "reference" then
      match v with
      | .null => unmarshalVerifiedTransactionInto t rest
      | .str s => unmarshalVerifiedTransactionInto ⟨t.Id, s, t.Status, t.Authorization⟩ rest
      | _ => .error "json: cannot unmarshal value into Go struct field VerifiedTransaction.reference of type string"
    else if lk = "status" then
      match v with
      | .null => unmarshalVerifiedTransactionInto t rest
      | .str s => unmarshalVerifiedTransactionInto ⟨t.Id, t.Reference, s, t.Authorization⟩ rest
      | _ => .error "json: cannot unmarshal value into Go struct field VerifiedTransaction.status of type string"
    else if lk = "authorization" then
      match v with
      | .null => unmarshalVerifiedTransactionInto ⟨t.Id, t.Reference, t.Status, none⟩ rest
      | .obj af =>
        match unmarshalAuthorizationInto (t.Authorization.getD zeroAuthorization) af with
        | .error msg => .error msg
        | .ok a => unmarshalVerifiedTransactionInto ⟨t.Id, t.Reference, t.Status, some a⟩ rest
      | _ => .error "json: cannot unmarshal value into Go struct field VerifiedTransaction.authorization of type Authorization"
    else unmarshalVerifiedTransactionInto t rest

/-- Generic fold for the one-field `data` envelopes. `unmItem` unmarshals
an object body into the payload, merging into the existing payload when
the pointer is already set (as `json.Unmarshal` reuses a non-nil
pointee), and `null` sets the pointer to nil. -/
def unmarshalDataEnvelope {α : Type}
    (unmItem : Option α → List (String × Json) → Except String α) :
    Option α → List (String × Json) → Except String (Option α)
  | r, [] => .ok r
  | r, (k, v) :: rest =>
    if asciiLower k = "data" then
      match v with
      | .null => unmarshalDataEnvelope unmItem none rest
      | .obj flds =>
        match unmItem r flds with
        | .error msg => .error msg
        | .ok a => unmarshalDataEnvelope unmItem (some a) rest
      | _ => .error "json: cannot unmarshal value into Go struct field of pointer type"
    else unmarshalDataEnvelope unmItem r rest

/-- Payload unmarshaler for `Customer` envelopes. -/
def customerFromFields (base : Option Customer) (flds : List (String × Json)) :
    Except String Customer :=
  unmarshalCustomerInto (base.getD zeroCustomer) flds

/-- Payload unmarshaler for `InitializedTransaction` envelopes. -/
def initializedTransactionFromFields (base : Option InitializedTransaction)
    (flds : List (String × Json)) : Except String InitializedTransaction :=
  unmarshalInitializedTransactionInto (base.getD zeroInitializedTransaction) flds

/-- Payload unmarshaler for `VerifiedTransaction` envelopes. -/
def verifiedTransactionFromFields (base : Option VerifiedTransaction)
    (flds : List (String × Json)) : Except String VerifiedTransaction :=
  unmarshalVerifiedTransactionInto (base.getD zeroVerifiedTransaction) flds

/-- `CreateCustomerResp` (lines 79-81): `Data *Customer` tagged `data`. -/
structure CreateCustomerResp where
  Data : Option Customer
deriving DecidableEq

/-- `InitTransactionResp` (lines 105-107): untagged `Data`, matched
case-insensitively by `json.Unmarshal`, so the JSON key `data` matches. -/
structure InitTransactionResp where
  Data : Option InitializedTransaction
deriving DecidableEq

/-- `ChargeTransactionResp` (lines 125-127). -/
structure ChargeTransactionResp where
  Data : Option InitializedTransaction
deriving DecidableEq

/-- `VerifiedTransactionResp` (lines 163-165). -/
structure VerifiedTransactionResp where
  Data : Option VerifiedTransaction
deriving DecidableEq

/-- `json.Unmarshal` of a parsed body into `CreateCustomerResp`. A
top-level `null` leaves the zero struct untouched; a non-object is a type
error. -/
def unmarshalCreateCustomerResp : Json → Except String CreateCustomerResp
  | .null => .ok ⟨none⟩
  | .obj flds =>
    match unmarshalDataEnvelope customerFromFields none flds with
    | .error msg => .error msg
    | .ok d => .ok ⟨d⟩
  | _ => .error "json: cannot unmarshal value into Go value of type CreateCustomerResp"

/-- `json.Unmarshal` of a parsed body into `InitTransactionResp`. -/
def unmarshalInitTransactionResp : Json → Except String InitTransactionResp
  | .null => .ok ⟨none⟩
  | .obj flds =>
    match unmarshalDataEnvelope initializedTransactionFromFields none flds with
    | .error msg => .error msg
    | .ok d => .ok ⟨d⟩
  | _ => .error "json: cannot unmarshal value into Go value of type InitTransactionResp"

/-- `json.Unmarshal` of a parsed body into `ChargeTransactionResp`. -/
def unmarshalChargeTransactionResp : Json → Except String ChargeTransactionResp
  | .null => .ok ⟨none⟩
  | .obj flds =>
    match unmarshalDataEnvelope initializedTransactionFromFields none flds with
    | .error msg => .error msg
    | .ok d => .ok ⟨d⟩
  | _ => .error "json: cannot unmarshal value into Go value of type ChargeTransactionResp"

/-- `json.Unmarshal` of a parsed body into `VerifiedTransactionResp`. -/
def unmarshalVerifiedTransactionResp : Json → Except String VerifiedTransactionResp
  | .null => .ok ⟨none⟩
  | .obj flds =>
    match unmarshalDataEnvelope verifiedTransactionFromFields none flds with
    | .error msg => .error msg
    | .ok d => .ok ⟨d⟩
  | _ => .error "json: cannot unmarshal value into Go value of type VerifiedTransactionResp"

/-! ### The dispatcher `request` (lines 31-63), split into its pure halves:
request construction (lines 31-44) and response processing (lines 49-62).
The actual network send (line 45) is the external transport; theorems
quantify over the `HttpResponse` it returns. -/

/-- The HTTP request the dispatcher hands to the transport. `body` is
`none` when `req_body` is nil (Go then sends an empty byte buffer), and
the marshaled JSON value otherwise. -/
structure HttpRequest where
  method : String
  url : String
  authorization : String
  body : Option Json

/-- An HTTP response as seen by the dispatcher: status code and the fully
read body (line 50 reads the entire body into memory). -/
structure HttpResponse where
  statusCode : Nat
  body : String
deriving DecidableEq

/-- The dispatcher's error outcomes after the transport succeeded:
line 55 wraps the raw body of a non-200 response via
fmt.Errorf with verb `%s`, so the error message is the body verbatim;
line 58 propagates a `json.Unmarshal` failure. -/
inductive RequestError where
  | remote : String → RequestError
  | decode : String → RequestError
deriving DecidableEq

/-- The error message carried by a `RequestError`. -/
def RequestError.message : RequestError → String
  | .remote b => b
  | .decode m => m

/-- Request construction (lines 31-44): marshal the optional request
payload, build the request with the given method and URL, and set the
header `Authorization: Bearer <secret>`. -/
def Client.buildRequest (c : Client) (url : String) (method : String)
    (reqBody : Option Json) : HttpRequest :=
  { method := method, url := url,
    authorization := "Bearer " ++ c.secret,
    body := reqBody }

/-- Response processing (lines 49-62): a status other than exactly 200
returns the raw body as the error, before any decoding; otherwise, when a
response shape was supplied, the body is decoded into it, and a decode
failure propagates. `respShape` carries the shape's unmarshaler, `none`
models a nil `resp_body`. -/
def handleResponse {α : Type} (resp : HttpResponse)
    (respShape : Option (String → Except String α)) : Except RequestError (Option α) :=
  if resp.statusCode ≠ 200 then .error (.remote resp.body)
  else
    match respShape with
    | none => .ok none
    | some unmarshal =>
      match unmarshal resp.body with
      | .error msg => .error (.decode msg)
      | .ok v => .ok (some v)

/-! ### Client construction (lines 19-29) -/

/-- `NewClient` (lines 20-29): reads the `PAYSTACK_SECRET` environment
value (`os.Getenv` yields the empty string when the variable is unset) and
calls `alog.Fatal` — modelled as `none`, the aborting non-return — when it
is empty; otherwise returns the client holding the secret. -/
def NewClient (paystackSecretEnv : String) : Option Client :=
  if paystackSecretEnv = "" then none
  else some { secret := paystackSecretEnv }

/-! ### Operations: the request each one builds -/

/-- `ValidateCredentials` (lines 72-75): GET to the customer endpoint with
nil request body. -/
def Client.validateCredentialsRequest (c : Client) : HttpRequest :=
  c.buildRequest "https://api.paystack.co/customer" "GET" none

/-- `CreateCustomer`'s request (lines 82-85): POST to the customer
endpoint, body `json.Marshal` of `&Customer\x7bEmail: email\x7d` — the
struct literal zero-fills `Id` and `CustomerCode`, and `Customer` has no
`omitempty`, so all three fields are serialized. -/
def Client.createCustomerRequest (c : Client) (email : String) : HttpRequest :=
  c.buildRequest "https://api.paystack.co/customer" "POST"
    (some (marshalCustomer ⟨0, email, ""⟩))

/-- `InitializeTransaction`'s request (lines 108-111): POST with body
built from `InitTransactionReq`, the amount rendered by `fmt.Sprintf`
with verb `%d`. -/
def Client.initializeTransactionRequest (c : Client) (email : String)
    (amount : Int) : HttpRequest :=
  c.buildRequest "https://api.paystack.co/transaction/initialize" "POST"
    (some (marshalInitTransactionReq ⟨email, sprintfD amount⟩))

/-- `ChargeAuthorization`'s request (lines 128-131). -/
def Client.chargeAuthorizationRequest (c : Client) (email : String)
    (amount : Int) (authCode : String) : HttpRequest :=
  c.buildRequest "https://api.paystack.co/transaction/charge_authorization" "POST"
    (some (marshalChargeTransactionReq ⟨email, sprintfD amount, authCode⟩))

/-- `VerifyTransaction`'s request (lines 166-168): GET, nil body, the
reference concatenated onto the URL verbatim. -/
def Client.verifyTransactionRequest (c : Client) (ref : String) : HttpRequest :=
  c.buildRequest ("https://api.paystack.co/transaction/verify/" ++ ref) "GET" none

/-! ### Operations: the result each one computes from the transport's
response. Each mirrors the Go pair return `(result, err)`: on a dispatcher
error it returns `(nil, err)`, otherwise the envelope's `Data` field and a
nil error. -/

/-- Decode a body into `CreateCustomerResp`. -/
def decodeCreateCustomerResp (body : String) : Except String CreateCustomerResp :=
  match parseJson body with
  | .error msg => .error msg
  | .ok j => unmarshalCreateCustomerResp j

/-- Decode a body into `InitTransactionResp`. -/
def decodeInitTransactionResp (body : String) : Except String InitTransactionResp :=
  match parseJson body with
  | .error msg => .error msg
  | .ok j => unmarshalInitTransactionResp j

/-- Decode a body into `ChargeTransactionResp`. -/
def decodeChargeTransactionResp (body : String) : Except String ChargeTransactionResp :=
  match parseJson body with
  | .error msg => .error msg
  | .ok j => unmarshalChargeTransactionResp j

/-- Decode a body into `VerifiedTransactionResp`. -/
def decodeVerifiedTransactionResp (body : String) : Except String VerifiedTransactionResp :=
  match parseJson body with
  | .error msg => .error msg
  | .ok j => unmarshalVerifiedTransactionResp j

/-- `ValidateCredentials` (lines 72-75): no response shape; returns only
the possible error. -/
def validateCredentialsResult (resp : HttpResponse) : Option RequestError :=
  match handleResponse resp (none : Option (String → Except String Unit)) with
  | .error e => some e
  | .ok _ => none

/-- `CreateCustomer`'s result (lines 84-89): on error `(nil, err)`, else
`(respBody.Data, nil)`. -/
def createCustomerResult (resp : HttpResponse) : Option Customer × Option RequestError :=
  match handleResponse resp (some decodeCreateCustomerResp) with
  | .error e => (none, some e)
  | .ok (some env) => (env.Data, none)
  | .ok none => (none, none)

/-- `InitializeTransaction`'s result (lines 110-115). -/
def initializeTransactionResult (resp : HttpResponse) :
    Option InitializedTransaction × Option RequestError :=
  match handleResponse resp (some decodeInitTransactionResp) with
  | .error e => (none, some e)
  | .ok (some env) => (env.Data, none)
  | .ok none => (none, none)

/-- `ChargeAuthorization`'s result (lines 130-135). -/
def chargeAuthorizationResult (resp : HttpResponse) :
    Option InitializedTransaction × Option RequestError :=
  match handleResponse resp (some decodeChargeTransactionResp) with
  | .error e => (none, some e)
  | .ok (some env) => (env.Data, none)
  | .ok none => (none, none)

/-- `VerifyTransaction`'s result (lines 167-171). -/
def verifyTransactionResult (resp : HttpResponse) :
    Option VerifiedTransaction × Option RequestError :=
  match handleResponse resp (some decodeVerifiedTransactionResp) with
  | .error e => (none, some e)
  | .ok (some env) => (env.Data, none)
  | .ok none => (none, none)

/-- The field names of a request's JSON body, `[]` for a nil body. -/
def requestBodyFieldNames (r : HttpRequest) : List String :=
  match r.body with
  | some j => j.fieldNames
  | none => []

/-! ## Claim theorems -/

/-- Claim C1, counterexample: the serialized `CreateCustomer` body does
not contain exactly one field `email` — at secret `sk_test_123` and email
`a@b.com` the marshaled `Customer` struct carries three fields (`id`,
`email`, `customer_code`), because the struct literal zero-fills the other
two fields and no tag has `omitempty`. -/
theorem createCustomer_single_field_counterexample :
    ¬ requestBodyFieldNames ((Client.mk "sk_test_123").createCustomerRequest "a@b.com")
      = ["email"] := by
  decide

/-- Claim C1, amended: for every client and email, `CreateCustomer` sends
a POST to the customer endpoint whose serialized JSON body has exactly the
three fields `id` (value 0), `email` (the given email string) and
`customer_code` (empty string); the email field carries the given email
and no other field appears. -/
theorem createCustomer_request_shape (c : Client) (email : String) :
    (c.createCustomerRequest email).method = "POST" ∧
    (c.createCustomerRequest email).url = "https://api.paystack.co/customer" ∧
    (c.createCustomerRequest email).body =
      some (.obj [("id", .num 0), ("email", .str email), ("customer_code", .str "")]) :=
  ⟨rfl, rfl, rfl⟩

/-- Claim C3: for every amount in the int32 range, including 0 and
negative values, `InitializeTransaction` and `ChargeAuthorization`
serialize the `amount` field as the JSON string holding its decimal
representation (`fmt.Sprintf` with verb `%d`), never as a JSON number,
and the request construction performs no range validation. -/
theorem amount_encoded_as_decimal_string (c : Client) (email authCode : String)
    (amount : Int) (h1 : -(2 ^ 31) ≤ amount) (h2 : amount < 2 ^ 31) :
    (c.initializeTransactionRequest email amount).body =
      some (.obj [("email", .str email), ("amount", .str (sprintfD amount))]) ∧
    (c.chargeAuthorizationRequest email amount authCode).body =
      some (.obj [("email", .str email), ("amount", .str (sprintfD amount)),
                  ("authorization_code", .str authCode)]) :=
  ⟨rfl, rfl⟩

/-- Witness for C3 at the negative extreme of int32. -/
theorem amount_encoded_as_decimal_string_witness :
    ((Client.mk "sk_test_123").initializeTransactionRequest "a@b.com" (-(2 ^ 31))).body =
      some (.obj [("email", .str "a@b.com"), ("amount", .str (sprintfD (-(2 ^ 31))))]) ∧
    ((Client.mk "sk_test_123").chargeAuthorizationRequest "a@b.com" (-(2 ^ 31)) "AUTH_x").body =
      some (.obj [("email", .str "a@b.com"), ("amount", .str (sprintfD (-(2 ^ 31)))),
                  ("authorization_code", .str "AUTH_x")]) :=
  amount_encoded_as_decimal_string (Client.mk "sk_test_123") "a@b.com" "AUTH_x"
    (-(2 ^ 31)) (by decide) (by decide)

/-- Claim C6: for every secret value, construction with the empty string
aborts (the fatal path, modelled as `none`) and never yields a client,
while construction with a non-empty secret returns the client holding
exactly that secret. -/
theorem newClient_empty_secret_aborts (s : String) :
    (s = "" → NewClient s = none) ∧ (s ≠ "" → NewClient s = some ⟨s⟩) := by
  constructor
  · intro h
    simp [NewClient, h]
  · intro h
    simp [NewClient, h]

/-- Witness for C6 at the empty secret and at `sk_test_123`. -/
theorem newClient_empty_secret_aborts_witness :
    NewClient "" = none ∧ NewClient "sk_test_123" = some ⟨"sk_test_123"⟩ :=
  ⟨(newClient_empty_secret_aborts "").1 rfl,
   (newClient_empty_secret_aborts "sk_test_123").2 (by decide)⟩

/-- Claim C7: every request issued by any of the five operations of a
constructed client carries the header `Authorization: Bearer <secret>`,
where the secret is exactly the credential held by the client. -/
theorem requests_carry_bearer_token (c : Client) (email authCode ref : String)
    (amount : Int) :
    c.validateCredentialsRequest.authorization = "Bearer " ++ c.secret ∧
    (c.createCustomerRequest email).authorization = "Bearer " ++ c.secret ∧
    (c.initializeTransactionRequest email amount).authorization = "Bearer " ++ c.secret ∧
    (c.chargeAuthorizationRequest email amount authCode).authorization = "Bearer " ++ c.secret ∧
    (c.verifyTransactionRequest ref).authorization = "Bearer " ++ c.secret :=
  ⟨rfl, rfl, rfl, rfl, rfl⟩

/-- Claim C8: for every reference string, `VerifyTransaction` issues a GET
with a nil request body to the URL obtained by concatenating the reference
verbatim (no escaping) onto `.../transaction/verify/`, so the URL ends in
`/transaction/verify/<ref>`. -/
theorem verifyTransaction_request_shape (c : Client) (ref : String) :
    (c.verifyTransactionRequest ref).method = "GET" ∧
    (c.verifyTransactionRequest ref).body = none ∧
    (c.verifyTransactionRequest ref).url =
      "https://api.paystack.co/transaction/verify/" ++ ref ∧
    (c.verifyTransactionRequest ref).url =
      "https://api.paystack.co" ++ ("/transaction/verify/" ++ ref) :=
  ⟨rfl, rfl, rfl, rfl⟩

/-- Claim C2: for every response shape and every response whose status is
not exactly 200 (201 included), the dispatcher — and with it every
operation — returns the error wrapping the raw response body verbatim,
with no deserialization attempted (the dispatcher conjunct holds for an
arbitrary shape, so the outcome never depends on the decoder). -/
theorem nonOk_status_raw_body_error (α : Type)
    (respShape : Option (String → Except String α)) (resp : HttpResponse)
    (h : resp.statusCode ≠ 200) :
    handleResponse resp respShape = .error (.remote resp.body) ∧
    createCustomerResult resp = (none, some (.remote resp.body)) ∧
    initializeTransactionResult resp = (none, some (.remote resp.body)) ∧
    chargeAuthorizationResult resp = (none, some (.remote resp.body)) ∧
    verifyTransactionResult resp = (none, some (.remote resp.body)) ∧
    validateCredentialsResult resp = some (.remote resp.body) := by
  have key : ∀ (β : Type) (shape : Option (String → Except String β)),
      handleResponse resp shape = .error (.remote resp.body) := by
    intro β shape
    simp [handleResponse, h]
  refine ⟨key α respShape, ?_, ?_, ?_, ?_, ?_⟩
  · simp [createCustomerResult, key]
  · simp [initializeTransactionResult, key]
  · simp [chargeAuthorizationResult, key]
  · simp [verifyTransactionResult, key]
  · simp [validateCredentialsResult, key]

/-- Witness for C2 at status 201 with the spec's error body. -/
theorem nonOk_status_raw_body_error_witness :
    handleResponse ⟨201, "\x7b\"message\":\"invalid key\"\x7d"⟩
      (none : Option (String → Except String Unit))
      = .error (.remote "\x7b\"message\":\"invalid key\"\x7d") ∧
    createCustomerResult ⟨201, "\x7b\"message\":\"invalid key\"\x7d"⟩
      = (none, some (.remote "\x7b\"message\":\"invalid key\"\x7d")) ∧
    initializeTransactionResult ⟨201, "\x7b\"message\":\"invalid key\"\x7d"⟩
      = (none, some (.remote "\x7b\"message\":\"invalid key\"\x7d")) ∧
    chargeAuthorizationResult ⟨201, "\x7b\"message\":\"invalid key\"\x7d"⟩
      = (none, some (.remote "\x7b\"message\":\"invalid key\"\x7d")) ∧
    verifyTransactionResult ⟨201, "\x7b\"message\":\"invalid key\"\x7d"⟩
      = (none, some (.remote "\x7b\"message\":\"invalid key\"\x7d")) ∧
    validateCredentialsResult ⟨201, "\x7b\"message\":\"invalid key\"\x7d"⟩
      = some (.remote "\x7b\"message\":\"invalid key\"\x7d") :=
  nonOk_status_raw_body_error Unit none ⟨201, "\x7b\"message\":\"invalid key\"\x7d"⟩
    (by decide)

/-- Claim C5: whenever a response shape is supplied (as it is by the four
data-returning operations), a 200 response whose body does not parse as
JSON — the empty body included — makes the operation return a decode
error carrying the parser's message, never a silent success. -/
theorem malformed_body_decode_error (resp : HttpResponse) (msg : String)
    (h : resp.statusCode = 200) (hbad : parseJson resp.body = .error msg) :
    createCustomerResult resp = (none, some (.decode msg)) ∧
    initializeTransactionResult resp = (none, some (.decode msg)) ∧
    chargeAuthorizationResult resp = (none, some (.decode msg)) ∧
    verifyTransactionResult resp = (none, some (.decode msg)) := by
  refine ⟨?_, ?_, ?_, ?_⟩
  · simp [createCustomerResult, handleResponse, h, decodeCreateCustomerResp, hbad]
  · simp [initializeTransactionResult, handleResponse, h, decodeInitTransactionResp, hbad]
  · simp [chargeAuthorizationResult, handleResponse, h, decodeChargeTransactionResp, hbad]
  · simp [verifyTransactionResult, handleResponse, h, decodeVerifiedTransactionResp, hbad]

/-- Witness for C5 at status 200 with the empty body. -/
theorem malformed_body_decode_error_witness :
    createCustomerResult ⟨200, ""⟩
      = (none, some (.decode "unexpected end of JSON input")) ∧
    initializeTransactionResult ⟨200, ""⟩
      = (none, some (.decode "unexpected end of JSON input")) ∧
    chargeAuthorizationResult ⟨200, ""⟩
      = (none, some (.decode "unexpected end of JSON input")) ∧
    verifyTransactionResult ⟨200, ""⟩
      = (none, some (.decode "unexpected end of JSON input")) :=
  malformed_body_decode_error ⟨200, ""⟩ "unexpected end of JSON input" rfl rfl

/-- Claim C9: for every response and every error value, whenever one of
the four data-returning operations yields that error, its result component
is nil — no partially populated result is ever paired with an error. -/
theorem error_implies_nil_result (resp : HttpResponse) (e : RequestError) :
    ((createCustomerResult resp).2 = some e → (createCustomerResult resp).1 = none) ∧
    ((initializeTransactionResult resp).2 = some e →
      (initializeTransactionResult resp).1 = none) ∧
    ((chargeAuthorizationResult resp).2 = some e →
      (chargeAuthorizationResult resp).1 = none) ∧
    ((verifyTransactionResult resp).2 = some e →
      (verifyTransactionResult resp).1 = none) := by
  refine ⟨?_, ?_, ?_, ?_⟩
  · intro h2
    unfold createCustomerResult at h2 ⊢
    cases hh : handleResponse resp (some decodeCreateCustomerResp) with
    | error e2 => simp [hh]
    | ok o =>
      rw [hh] at h2
      cases o with
      | none => simp at h2
      | some env => simp at h2
  · intro h2
    unfold initializeTransactionResult at h2 ⊢
    cases hh : handleResponse resp (some decodeInitTransactionResp) with
    | error e2 => simp [hh]
    | ok o =>
      rw [hh] at h2
      cases o with
      | none => simp at h2
      | some env => simp at h2
  · intro h2
    unfold chargeAuthorizationResult at h2 ⊢
    cases hh : handleResponse resp (some decodeChargeTransactionResp) with
    | error e2 => simp [hh]
    | ok o =>
      rw [hh] at h2
      cases o with
      | none => simp at h2
      | some env => simp at h2
  · intro h2
    unfold verifyTransactionResult at h2 ⊢
    cases hh : handleResponse resp (some decodeVerifiedTransactionResp) with
    | error e2 => simp [hh]
    | ok o =>
      rw [hh] at h2
      cases o with
      | none => simp at h2
      | some env => simp at h2

/-- Witness for C9 at a 500 response. -/
theorem error_implies_nil_result_witness :
    (createCustomerResult ⟨500, "boom"⟩).1 = none ∧
    (initializeTransactionResult ⟨500, "boom"⟩).1 = none ∧
    (chargeAuthorizationResult ⟨500, "boom"⟩).1 = none ∧
    (verifyTransactionResult ⟨500, "boom"⟩).1 = none :=
  ⟨(error_implies_nil_result ⟨500, "boom"⟩ (.remote "boom")).1 rfl,
   (error_implies_nil_result ⟨500, "boom"⟩ (.remote "boom")).2.1 rfl,
   (error_implies_nil_result ⟨500, "boom"⟩ (.remote "boom")).2.2.1 rfl,
   (error_implies_nil_result ⟨500, "boom"⟩ (.remote "boom")).2.2.2 rfl⟩

/-- Claim C4: for every data-returning operation, a 200 response whose
body is a well-formed `data` envelope yields the nil error together with
the result populated field-for-field from the envelope's `data` member —
in particular `CreateCustomer` maps `id`, `email`, `customer_code`
through unchanged. Each operation is given its own response and envelope
contents. -/
theorem ok_envelope_populates_result (r1 r2 r3 r4 : HttpResponse)
    (i vid : Int) (e cc rf au ac rf2 au2 ac2 vr vs : String)
    (h1 : r1.statusCode = 200)
    (p1 : parseJson r1.body = .ok (.obj [("data", .obj
      [("id", .num i), ("email", .str e), ("customer_code", .str cc)])]))
    (h2 : r2.statusCode = 200)
    (p2 : parseJson r2.body = .ok (.obj [("data", .obj
      [("reference", .str rf), ("authorization_url", .str au), ("access_code", .str ac)])]))
    (h3 : r3.statusCode = 200)
    (p3 : parseJson r3.body = .ok (.obj [("data", .obj
      [("reference", .str rf2), ("authorization_url", .str au2), ("access_code", .str ac2)])]))
    (h4 : r4.statusCode = 200)
    (p4 : parseJson r4.body = .ok (.obj [("data", .obj
      [("id", .num vid), ("reference", .str vr), ("status", .str vs)])])) :
    createCustomerResult r1 = (some ⟨i, e, cc⟩, none) ∧
    initializeTransactionResult r2 = (some ⟨rf, au, ac⟩, none) ∧
    chargeAuthorizationResult r3 = (some ⟨rf2, au2, ac2⟩, none) ∧
    verifyTransactionResult r4 = (some ⟨vid, vr, vs, none⟩, none) := by
  refine ⟨?_, ?_, ?_, ?_⟩
  · have hd : decodeCreateCustomerResp r1.body = .ok ⟨some ⟨i, e, cc⟩⟩ := by
      unfold decodeCreateCustomerResp
      rw [p1]
      rfl
    simp [createCustomerResult, handleResponse, h1, hd]
  · have hd : decodeInitTransactionResp r2.body = .ok ⟨some ⟨rf, au, ac⟩⟩ := by
      unfold decodeInitTransactionResp
      rw [p2]
      rfl
    simp [initializeTransactionResult, handleResponse, h2, hd]
  · have hd : decodeChargeTransactionResp r3.body = .ok ⟨some ⟨rf2, au2, ac2⟩⟩ := by
      unfold decodeChargeTransactionResp
      rw [p3]
      rfl
    simp [chargeAuthorizationResult, handleResponse, h3, hd]
  · have hd : decodeVerifiedTransactionResp r4.body = .ok ⟨some ⟨vid, vr, vs, none⟩⟩ := by
      unfold decodeVerifiedTransactionResp
      rw [p4]
      rfl
    simp [verifyTransactionResult, handleResponse, h4, hd]

/-- Witness for C4: the spec's scenario body for `CreateCustomer` and
matching envelopes for the other three operations. -/
theorem ok_envelope_populates_result_witness :
    createCustomerResult
        ⟨200, "\x7b\"data\":\x7b\"id\":1,\"email\":\"a@b.com\",\"customer_code\":\"CUS_xyz\"\x7d\x7d"⟩
      = (some ⟨1, "a@b.com", "CUS_xyz"⟩, none) ∧
    initializeTransactionResult
        ⟨200, "\x7b\"data\":\x7b\"reference\":\"ref1\",\"authorization_url\":\"https://co/a\",\"access_code\":\"ac1\"\x7d\x7d"⟩
      = (some ⟨"ref1", "https://co/a", "ac1"⟩, none) ∧
    chargeAuthorizationResult
        ⟨200, "\x7b\"data\":\x7b\"reference\":\"ref2\",\"authorization_url\":\"https://co/b\",\"access_code\":\"ac2\"\x7d\x7d"⟩
      = (some ⟨"ref2", "https://co/b", "ac2"⟩, none) ∧
    verifyTransactionResult
        ⟨200, "\x7b\"data\":\x7b\"id\":7,\"reference\":\"ref123\",\"status\":\"success\"\x7d\x7d"⟩
      = (some ⟨7, "ref123", "success", none⟩, none) :=
  ok_envelope_populates_result _ _ _ _ 1 7 "a@b.com" "CUS_xyz" "ref1" "https://co/a"
    "ac1" "ref2" "https://co/b" "ac2" "ref123" "success"
    rfl rfl rfl rfl rfl rfl rfl rfl

/-! ### Envelope lemmas for C10 -/

/-- The values of the members whose key matches the `data` field, in
order. -/
def dataVals (flds : List (String × Json)) : List Json :=
  (flds.filter (fun kv => asciiLower kv.1 == "data")).map (fun kv => kv.2)

/-- An envelope fold over members without a `data` key leaves the payload
pointer unchanged. -/
theorem unmarshalDataEnvelope_no_data {α : Type}
    (u : Option α → List (String × Json) → Except String α) :
    ∀ (flds : List (String × Json)) (r : Option α), dataVals flds = [] →
      unmarshalDataEnvelope u r flds = .ok r := by
  intro flds
  induction flds with
  | nil =>
    intro r _
    rfl
  | cons kv rest ih =>
    intro r hd
    obtain ⟨k, v⟩ := kv
    by_cases hc : asciiLower k = "data"
    · exfalso
      simp [dataVals, List.filter_cons, hc] at hd
    · have hrest : dataVals rest = [] := by
        simpa [dataVals, List.filter_cons, hc] using hd
      simp only [unmarshalDataEnvelope, hc, if_false]
      exact ih r hrest

/-- An envelope fold whose only `data` member is `null` ends with a nil
payload pointer. -/
theorem unmarshalDataEnvelope_null_data {α : Type}
    (u : Option α → List (String × Json) → Except String α) :
    ∀ (flds : List (String × Json)) (r : Option α), dataVals flds = [Json.null] →
      unmarshalDataEnvelope u r flds = .ok none := by
  intro flds
  induction flds with
  | nil =>
    intro r hd
    simp [dataVals] at hd
  | cons kv rest ih =>
    intro r hd
    obtain ⟨k, v⟩ := kv
    by_cases hc : asciiLower k = "data"
    · have hcons : v :: dataVals rest = [Json.null] := by
        simpa [dataVals, List.filter_cons, hc] using hd
      have hv : v = Json.null := (List.cons_eq_cons.mp hcons).1
      have hrest : dataVals rest = [] := (List.cons_eq_cons.mp hcons).2
      subst hv
      simp only [unmarshalDataEnvelope, hc, if_true]
      exact unmarshalDataEnvelope_no_data u rest none hrest
    · have hrest : dataVals rest = [Json.null] := by
        simpa [dataVals, List.filter_cons, hc] using hd
      simp only [unmarshalDataEnvelope, hc, if_false]
      exact ih r hrest

/-- Claim C10: for every data-returning operation, a 200 response whose
body is valid JSON (an object) but whose `data` member is absent or null
yields a nil result pointer together with a nil error — success does not
guarantee a populated result. -/
theorem missing_data_nil_result_nil_error (resp : HttpResponse)
    (flds : List (String × Json)) (h : resp.statusCode = 200)
    (hp : parseJson resp.body = .ok (.obj flds))
    (hd : dataVals flds = [] ∨ dataVals flds = [Json.null]) :
    createCustomerResult resp = (none, none) ∧
    initializeTransactionResult resp = (none, none) ∧
    chargeAuthorizationResult resp = (none, none) ∧
    verifyTransactionResult resp = (none, none) := by
  have henv : ∀ {α : Type} (u : Option α → List (String × Json) → Except String α),
      unmarshalDataEnvelope u none flds = .ok none := by
    intro α u
    rcases hd with hd | hd
    · exact unmarshalDataEnvelope_no_data u flds none hd
    · exact unmarshalDataEnvelope_null_data u flds none hd
  refine ⟨?_, ?_, ?_, ?_⟩
  · have hdec : decodeCreateCustomerResp resp.body = .ok ⟨none⟩ := by
      unfold decodeCreateCustomerResp
      rw [hp]
      simp [unmarshalCreateCustomerResp, henv]
    simp [createCustomerResult, handleResponse, h, hdec]
  · have hdec : decodeInitTransactionResp resp.body = .ok ⟨none⟩ := by
      unfold decodeInitTransactionResp
      rw [hp]
      simp [unmarshalInitTransactionResp, henv]
    simp [initializeTransactionResult, handleResponse, h, hdec]
  · have hdec : decodeChargeTransactionResp resp.body = .ok ⟨none⟩ := by
      unfold decodeChargeTransactionResp
      rw [hp]
      simp [unmarshalChargeTransactionResp, henv]
    simp [chargeAuthorizationResult, handleResponse, h, hdec]
  · have hdec : decodeVerifiedTransactionResp resp.body = .ok ⟨none⟩ := by
      unfold decodeVerifiedTransactionResp
      rw [hp]
      simp [unmarshalVerifiedTransactionResp, henv]
    simp [verifyTransactionResult, handleResponse, h, hdec]

/-- Witness for C10 at the empty-object body. -/
theorem missing_data_nil_result_nil_error_witness :
    createCustomerResult ⟨200, "\x7b\x7d"⟩ = (none, none) ∧
    initializeTransactionResult ⟨200, "\x7b\x7d"⟩ = (none, none) ∧
    chargeAuthorizationResult ⟨200, "\x7b\x7d"⟩ = (none, none) ∧
    verifyTransactionResult ⟨200, "\x7b\x7d"⟩ = (none, none) :=
  missing_data_nil_result_nil_error ⟨200, "\x7b\x7d"⟩ [] rfl rfl (Or.inl rfl)

end Paystack



